import Mathlib

/-!
Shallow embedding of `src/server.js` (apipokecraft): a CRUD API over a SQLite
store with tables `recipes` and `recipe_materials`.  JSON numbers are modelled
as `Int`, absent JSON fields as `none`, and JavaScript falsiness of strings
("" and absent) and numbers (0 and absent) explicitly.  The SQLite transaction
semantics is modelled by returning the unchanged store on any ROLLBACK path;
storage failures during material inserts are modelled by an injected failure
index (`failAt`), mirroring the `materialErrorOccurred` flag in the handlers.
-/

/-- A row of the `recipes` table. -/
structure Recipe where
  id : Int
  name : String
  quantity_produced : Int
  npc_sell_price : Int
deriving DecidableEq, Repr

/-- A row of the `recipe_materials` table. -/
structure Material where
  recipe_id : Int
  material_name : String
  quantity : Int
  material_type : String
  default_npc_price : Int
deriving DecidableEq, Repr

/-- The persistent store: both tables plus the next rowid the recipe insert
will assign (`this.lastID`). -/
structure Store where
  recipes : List Recipe
  materials : List Material
  nextId : Int
deriving DecidableEq, Repr

/-- A material entry of a request body; `none` models an absent JSON field. -/
structure MatInput where
  material_name : Option String
  quantity : Option Int
  material_type : Option String
  default_npc_price : Option Int
deriving DecidableEq, Repr

/-- The request body of POST /api/items and PUT /api/items/:id.
`materials = none` models an absent body field or a non-array value
(`!materials || !Array.isArray(materials)`). -/
structure RecipeBody where
  name : Option String
  quantity_produced : Option Int
  npc_sell_price : Option Int
  materials : Option (List MatInput)
deriving DecidableEq, Repr

/-- JavaScript falsiness of an optional string: absent or `""`. -/
def falsyStr : Option String → Bool
  | none => true
  | some s => s == ""

/-- JavaScript falsiness of an optional number: absent or `0`. -/
def falsyNum : Option Int → Bool
  | none => true
  | some n => n == 0

/-- The body validation shared by the POST and PUT handlers
(`server.js` lines 112-113 and 160-161):
`!name || !quantity_produced || !materials || !Array.isArray(materials)`
followed by
`materials.some(mat => !mat.material_name || !mat.quantity || !mat.material_type)`. -/
def validateBody (b : RecipeBody) : Bool :=
  !(falsyStr b.name || falsyNum b.quantity_produced || b.materials.isNone ||
    (b.materials.getD []).any
      (fun mat => falsyStr mat.material_name || falsyNum mat.quantity ||
        falsyStr mat.material_type))

/-- The `recipe_materials` row inserted for one body entry
(`[recipeId, mat.material_name, mat.quantity, mat.material_type,
mat.default_npc_price || 0]`).  For an `Int`-valued price, `v || 0` is exactly
`Option.getD 0`: absent gives 0 and `some 0` gives 0 = the value itself. -/
def matRow (rid : Int) (m : MatInput) : Material :=
  { recipe_id := rid
    material_name := m.material_name.getD ""
    quantity := m.quantity.getD 0
    material_type := m.material_type.getD ""
    default_npc_price := m.default_npc_price.getD 0 }

/-- The sequential material inserts (`materials.forEach` + `stmtMaterial.run`):
returns the rows inserted before any error together with the
`materialErrorOccurred` flag.  `failAt = some j` injects a storage failure into
the insert with running index `j` (counting from `i`); inserts after a failure
are skipped (`if (materialErrorOccurred) return;`). -/
def runMats (rid : Int) : List MatInput → Nat → Option Nat → List Material × Bool
  | [], _, _ => ([], false)
  | m :: rest, i, failAt =>
    if failAt = some i then ([], true)
    else
      let res := runMats rid rest (i + 1) failAt
      (matRow rid m :: res.1, res.2)

/-- Outcome of POST /api/items. -/
inductive CreateResp where
  | badRequest
  | created (id : Int)
  | storeError
deriving DecidableEq, Repr

/-- The `recipes` row inserted by the POST handler
(`[name, quantity_produced, npc_sell_price || 0]`, rowid `this.lastID`). -/
def newRecipe (s : Store) (b : RecipeBody) : Recipe :=
  { id := s.nextId
    name := b.name.getD ""
    quantity_produced := b.quantity_produced.getD 0
    npc_sell_price := b.npc_sell_price.getD 0 }

/-- POST /api/items (`server.js` lines 107-150): validate, BEGIN, insert the
recipe row, insert every material row, then COMMIT — or ROLLBACK (modelled as
returning the unchanged store) if any material insert failed. -/
def create_recipe (s : Store) (b : RecipeBody) (failAt : Option Nat) :
    CreateResp × Store :=
  if validateBody b then
    let rid := s.nextId
    let res := runMats rid (b.materials.getD []) 0 failAt
    if res.2 then (.storeError, s)
    else
      (.created rid,
        { recipes := s.recipes ++ [newRecipe s b]
          materials := s.materials ++ res.1
          nextId := s.nextId + 1 })
  else (.badRequest, s)

/-- Outcome of PUT /api/items/:id. -/
inductive UpdateResp where
  | badRequest
  | notFound
  | updated (id : Int)
  | storeError
deriving DecidableEq, Repr

/-- The effect of `UPDATE recipes SET name = ?, quantity_produced = ?,
npc_sell_price = ? WHERE id = ?` on one row. -/
def updRow (itemId : Int) (b : RecipeBody) (r : Recipe) : Recipe :=
  if r.id == itemId then
    { r with
      name := b.name.getD ""
      quantity_produced := b.quantity_produced.getD 0
      npc_sell_price := b.npc_sell_price.getD 0 }
  else r

/-- PUT /api/items/:id (`server.js` lines 153-198), after the id has parsed:
validate, BEGIN, UPDATE the recipe row (404 + ROLLBACK when `this.changes`
is 0), DELETE the old materials, insert the new ones, COMMIT — or ROLLBACK on
any failure.  `updateFails`, `deleteFails` and `failAt` inject storage
failures into the three write steps. -/
def update_recipe (s : Store) (itemId : Int) (b : RecipeBody)
    (updateFails deleteFails : Bool) (failAt : Option Nat) :
    UpdateResp × Store :=
  if validateBody b then
    if updateFails then (.storeError, s)
    else if s.recipes.countP (fun r => r.id == itemId) == 0 then (.notFound, s)
    else if deleteFails then (.storeError, s)
    else
      let res := runMats itemId (b.materials.getD []) 0 failAt
      if res.2 then (.storeError, s)
      else
        (.updated itemId,
          { s with
            recipes := s.recipes.map (updRow itemId b)
            materials :=
              s.materials.filter (fun m => m.recipe_id != itemId) ++ res.1 })
  else (.badRequest, s)

/-- Outcome of GET /api/items/:id/recipe. -/
inductive GetResp where
  | badRequest
  | notFound
  | found (recipe : Recipe) (materials : List Material)
deriving DecidableEq, Repr

/-- GET /api/items/:id/recipe (`server.js` lines 64-88), after the id has
parsed: `db.get` the first matching recipe row (404 when none), then `db.all`
its material rows; the response always carries a `materials` list
(`materialRows || []`). -/
def get_recipe (s : Store) (itemId : Int) : GetResp :=
  match s.recipes.find? (fun r => r.id == itemId) with
  | none => .notFound
  | some r => .found r (s.materials.filter (fun m => m.recipe_id == itemId))

/-- Outcome of DELETE /api/items/:id. -/
inductive DeleteResp where
  | badRequest
  | notFound
  | deleted
deriving DecidableEq, Repr

/-- DELETE /api/items/:id (`server.js` lines 201-211), after the id has
parsed: DELETE the recipe row (404 when `this.changes` is 0); the
`ON DELETE CASCADE` foreign key removes the dependent material rows. -/
def delete_recipe (s : Store) (itemId : Int) : DeleteResp × Store :=
  if s.recipes.countP (fun r => r.id == itemId) == 0 then (.notFound, s)
  else
    (.deleted,
      { s with
        recipes := s.recipes.filter (fun r => r.id != itemId)
        materials := s.materials.filter (fun m => m.recipe_id != itemId) })

/-- JavaScript `parseInt(s, 10)`: skip leading whitespace, read an optional
sign, then the longest prefix of decimal digits; `none` models `NaN` (no digit
found). -/
def parseIntJS (s : String) : Option Int :=
  let cs := s.data.dropWhile Char.isWhitespace
  let signRest : Int × List Char :=
    match cs with
    | '-' :: t => (-1, t)
    | '+' :: t => (1, t)
    | _ => (1, cs)
  let ds := signRest.2.takeWhile Char.isDigit
  if ds.isEmpty then none
  else
    some (signRest.1 *
      (ds.foldl (fun acc c => acc * 10 + (c.toNat - 48)) 0 : Nat))

/-- GET /api/items/:id/recipe with the raw path parameter: a 400 when
`parseInt` yields `NaN` (`server.js` lines 65-66), else the query. -/
def get_recipe_api (s : Store) (idStr : String) : GetResp :=
  match parseIntJS idStr with
  | none => .badRequest
  | some i => get_recipe s i

/-- PUT /api/items/:id with the raw path parameter: the `isNaN` check
(`server.js` line 159) runs before the body validation. -/
def update_recipe_api (s : Store) (idStr : String) (b : RecipeBody)
    (updateFails deleteFails : Bool) (failAt : Option Nat) :
    UpdateResp × Store :=
  match parseIntJS idStr with
  | none => (.badRequest, s)
  | some i => update_recipe s i b updateFails deleteFails failAt

/-- DELETE /api/items/:id with the raw path parameter (`server.js`
lines 202-203). -/
def delete_recipe_api (s : Store) (idStr : String) : DeleteResp × Store :=
  match parseIntJS idStr with
  | none => (.badRequest, s)
  | some i => delete_recipe s i

/-- The projection returned by GET /api/items for each row. -/
structure ListItem where
  id : Int
  name : String
  npc_sell_price : Int
deriving DecidableEq, Repr

/-- `ORDER BY name ASC` of the listing query. -/
def nameLe (a b : Recipe) : Prop := a.name ≤ b.name

instance : DecidableRel nameLe :=
  fun a b => inferInstanceAs (Decidable (a.name ≤ b.name))

instance : IsTotal Recipe nameLe :=
  ⟨fun a b => le_total a.name b.name⟩

instance : IsTrans Recipe nameLe :=
  ⟨fun _ _ _ hab hbc => le_trans hab hbc⟩

/-- GET /api/items (`server.js` lines 49-61):
`SELECT id, name, npc_sell_price FROM recipes ORDER BY name ASC`, all rows. -/
def list_recipes (s : Store) : List ListItem :=
  (List.insertionSort nameLe s.recipes).map
    (fun r => { id := r.id, name := r.name, npc_sell_price := r.npc_sell_price })

/-- Foreign-key invariant of the schema: every `recipe_materials` row
references an existing `recipes` row. -/
def fkInv (s : Store) : Prop :=
  ∀ m ∈ s.materials, ∃ r ∈ s.recipes, m.recipe_id = r.id

/-- Freshness of the next rowid: every recipe id is below `nextId`. -/
def freshInv (s : Store) : Prop :=
  ∀ r ∈ s.recipes, r.id < s.nextId

/-- Well-formed store. -/
def wf (s : Store) : Prop := fkInv s ∧ freshInv s

instance : DecidablePred fkInv := fun s =>
  inferInstanceAs (Decidable (∀ m ∈ s.materials, ∃ r ∈ s.recipes, m.recipe_id = r.id))

instance : DecidablePred freshInv := fun s =>
  inferInstanceAs (Decidable (∀ r ∈ s.recipes, r.id < s.nextId))

instance : DecidablePred wf := fun s =>
  inferInstanceAs (Decidable (fkInv s ∧ freshInv s))

/-- Modelled from the spec: the API layer claims to reject every id that is
"not a numeric string"; a numeric string is a nonempty run of decimal digits
after an optional sign. -/
def isNumericString (s : String) : Bool :=
  let cs : List Char :=
    match s.data with
    | '-' :: t => t
    | '+' :: t => t
    | cs => cs
  !cs.isEmpty && cs.all Char.isDigit

/-! ## Concrete fixtures used by witnesses and counterexamples -/

/-- The spec's concrete scenario: recipe 1 = Sword, price 50, one Iron material. -/
def swordStore : Store :=
  { recipes := [{ id := 1, name := "Sword", quantity_produced := 1, npc_sell_price := 50 }]
    materials := [{ recipe_id := 1, material_name := "Iron", quantity := 3,
                    material_type := "ore", default_npc_price := 5 }]
    nextId := 2 }

def c1body : RecipeBody :=
  { name := some "Potion", quantity_produced := some 2, npc_sell_price := some 7
    materials := some [{ material_name := some "Herb", quantity := some 1,
                         material_type := some "plant", default_npc_price := some 2 },
                       { material_name := some "Water", quantity := some 1,
                         material_type := some "liquid", default_npc_price := some 1 }] }

def c2body : RecipeBody :=
  { name := some "Sword", quantity_produced := some 1, npc_sell_price := some 60
    materials := some [] }

def c3body : RecipeBody :=
  { name := some "Sword", quantity_produced := some 1, npc_sell_price := some 55
    materials := some [{ material_name := some "Iron", quantity := some 4,
                         material_type := some "ore", default_npc_price := some 5 }] }

def emptyStore : Store := { recipes := [], materials := [], nextId := 1 }

def c4mats : List MatInput :=
  [{ material_name := some "Iron", quantity := some 3,
     material_type := some "ore", default_npc_price := some 5 }]

def c6body : RecipeBody :=
  { name := some "Shield", quantity_produced := some (-3), npc_sell_price := some 10
    materials := some [{ material_name := some "Wood", quantity := some (-2),
                         material_type := some "wood", default_npc_price := some 1 }] }

def c6badBody : RecipeBody :=
  { name := none, quantity_produced := some 1, npc_sell_price := none
    materials := some [] }

def c7store : Store :=
  { recipes := [{ id := 12, name := "Axe", quantity_produced := 1, npc_sell_price := 5 }]
    materials := []
    nextId := 13 }

def c7body : RecipeBody :=
  { name := some "Axe", quantity_produced := some 1, npc_sell_price := some 5
    materials := some [{ material_name := some "Log", quantity := some 1,
                         material_type := some "wood", default_npc_price := some 1 }] }

def c9body : RecipeBody :=
  { name := some "Gem", quantity_produced := some 1, npc_sell_price := some (-5)
    materials := some [{ material_name := some "Shard", quantity := some 2,
                         material_type := some "gem", default_npc_price := some (-7) }] }

def c9defBody : RecipeBody :=
  { name := some "Orb", quantity_produced := some 1, npc_sell_price := none
    materials := some [{ material_name := some "Dust", quantity := some 1,
                         material_type := some "powder", default_npc_price := none }] }

/-- A store whose recipe 7 exists and has zero material rows. -/
def c10store : Store :=
  { recipes := [{ id := 7, name := "Bottle", quantity_produced := 1, npc_sell_price := 2 }]
    materials := []
    nextId := 8 }

/-! ## Helper lemmas -/

theorem runMats_none_eq (rid : Int) (mats : List MatInput) (i : Nat) :
    runMats rid mats i none = (mats.map (matRow rid), false) := by
  induction mats generalizing i with
  | nil => rfl
  | cons m rest ih => simp [runMats, ih]

theorem runMats_fst_mem (rid : Int) (mats : List MatInput) (i : Nat)
    (fa : Option Nat) :
    ∀ m ∈ (runMats rid mats i fa).1, m.recipe_id = rid := by
  induction mats generalizing i with
  | nil => intro m hm; simp [runMats] at hm
  | cons a rest ih =>
    intro m hm
    by_cases h : fa = some i
    · simp [runMats, h] at hm
    · simp only [runMats, if_neg h] at hm
      cases hm with
      | head => rfl
      | tail _ hm2 => exact ih (i + 1) m hm2

theorem runMats_fail (rid : Int) (mats : List MatInput) :
    ∀ (i j : Nat), j < mats.length → (runMats rid mats i (some (i + j))).2 = true := by
  induction mats with
  | nil => intro i j h; simp at h
  | cons a rest ih =>
    intro i j h
    cases j with
    | zero => simp [runMats]
    | succ j' =>
      have hne : ¬ ((some (i + (j' + 1)) : Option Nat) = some i) := by
        simp only [Option.some.injEq]
        omega
      have hrw : i + (j' + 1) = (i + 1) + j' := by omega
      have hlen : j' < rest.length := by
        simp only [List.length_cons] at h; omega
      have ihx := ih (i + 1) j' hlen
      rw [hrw] at hne ⊢
      simp only [runMats, if_neg hne]
      exact ihx

theorem runMats_fail0 (rid : Int) (mats : List MatInput) (i : Nat)
    (h : i < mats.length) : (runMats rid mats 0 (some i)).2 = true := by
  have := runMats_fail rid mats 0 i h
  simpa using this

theorem find?_fresh_recipes (s : Store) (h : freshInv s) :
    s.recipes.find? (fun r => r.id == s.nextId) = none := by
  rw [List.find?_eq_none]
  intro r hr
  have hlt := h r hr
  simp only [beq_iff_eq]
  omega

theorem filter_fresh_materials (s : Store) (hwf : wf s) :
    s.materials.filter (fun m => m.recipe_id == s.nextId) = [] := by
  rw [List.filter_eq_nil_iff]
  intro m hm
  obtain ⟨r, hr, he⟩ := hwf.1 m hm
  have hlt := hwf.2 r hr
  simp only [beq_iff_eq]
  omega

theorem countP_zero_of_no_id (l : List Recipe) (itemId : Int)
    (h : ∀ r ∈ l, r.id ≠ itemId) :
    l.countP (fun r => r.id == itemId) = 0 := by
  rw [List.countP_eq_zero]
  intro r hr
  simp only [beq_iff_eq]
  exact h r hr

theorem exists_id_of_countP_ne (l : List Recipe) (itemId : Int)
    (h : l.countP (fun r => r.id == itemId) ≠ 0) :
    ∃ r ∈ l, r.id = itemId := by
  by_contra hno
  push_neg at hno
  exact h (countP_zero_of_no_id l itemId hno)

theorem updRow_id (itemId : Int) (b : RecipeBody) (r : Recipe) :
    (updRow itemId b r).id = r.id := by
  unfold updRow
  split <;> rfl

theorem create_cases (s : Store) (b : RecipeBody) (fa : Option Nat) :
    (create_recipe s b fa).2 = s ∨
    (validateBody b = true ∧
     (runMats s.nextId (b.materials.getD []) 0 fa).2 = false ∧
     create_recipe s b fa =
       (.created s.nextId,
         { recipes := s.recipes ++ [newRecipe s b]
           materials :=
             s.materials ++ (runMats s.nextId (b.materials.getD []) 0 fa).1
           nextId := s.nextId + 1 })) := by
  by_cases hv : validateBody b
  · by_cases hr : (runMats s.nextId (b.materials.getD []) 0 fa).2
    · left
      simp [create_recipe, hv, hr]
    · right
      refine ⟨hv, by simpa using hr, ?_⟩
      simp [create_recipe, hv, hr]
  · left
    simp [create_recipe, hv]

theorem update_cases (s : Store) (itemId : Int) (b : RecipeBody) (uf df : Bool)
    (fa : Option Nat) :
    (update_recipe s itemId b uf df fa).2 = s ∨
    (validateBody b = true ∧
     s.recipes.countP (fun r => r.id == itemId) ≠ 0 ∧
     (runMats itemId (b.materials.getD []) 0 fa).2 = false ∧
     update_recipe s itemId b uf df fa =
       (.updated itemId,
         { s with
           recipes := s.recipes.map (updRow itemId b)
           materials :=
             s.materials.filter (fun m => m.recipe_id != itemId) ++
               (runMats itemId (b.materials.getD []) 0 fa).1 })) := by
  by_cases hv : validateBody b
  · cases uf with
    | true =>
      left
      simp [update_recipe, hv]
    | false =>
      by_cases hc : (s.recipes.countP (fun r => r.id == itemId) == 0 : Bool)
      · left
        simp [update_recipe, hv, hc]
      · cases df with
        | true =>
          left
          simp [update_recipe, hv, hc]
        | false =>
          by_cases hr : (runMats itemId (b.materials.getD []) 0 fa).2
          · left
            simp [update_recipe, hv, hc, hr]
          · right
            refine ⟨hv, by simpa using hc, by simpa using hr, ?_⟩
            simp [update_recipe, hv, hc, hr]
  · left
    simp [update_recipe, hv]

theorem delete_cases (s : Store) (itemId : Int) :
    (delete_recipe s itemId = (.notFound, s) ∧
     s.recipes.countP (fun r => r.id == itemId) = 0) ∨
    (s.recipes.countP (fun r => r.id == itemId) ≠ 0 ∧
     delete_recipe s itemId =
       (.deleted,
         { s with
           recipes := s.recipes.filter (fun r => r.id != itemId)
           materials := s.materials.filter (fun m => m.recipe_id != itemId) })) := by
  by_cases hc : (s.recipes.countP (fun r => r.id == itemId) == 0 : Bool)
  · left
    exact ⟨by simp [delete_recipe, hc], by simpa using hc⟩
  · right
    exact ⟨by simpa using hc, by simp [delete_recipe, hc]⟩

theorem wf_create (s : Store) (b : RecipeBody) (fa : Option Nat) (hwf : wf s) :
    wf (create_recipe s b fa).2 := by
  rcases create_cases s b fa with h | ⟨_, _, h⟩
  · rw [h]; exact hwf
  · rw [h]
    constructor
    · intro m hm
      rcases List.mem_append.mp hm with hm | hm
      · obtain ⟨r, hr, he⟩ := hwf.1 m hm
        exact ⟨r, List.mem_append_left _ hr, he⟩
      · refine ⟨newRecipe s b, List.mem_append_right _ (List.mem_singleton_self _), ?_⟩
        rw [runMats_fst_mem _ _ _ _ m hm]
        rfl
    · intro r hr
      rcases List.mem_append.mp hr with hr | hr
      · have := hwf.2 r hr
        simp only [Store.nextId] at *
        omega
      · rw [List.mem_singleton.mp hr]
        simp [newRecipe]

theorem wf_update (s : Store) (itemId : Int) (b : RecipeBody) (uf df : Bool)
    (fa : Option Nat) (hwf : wf s) :
    wf (update_recipe s itemId b uf df fa).2 := by
  rcases update_cases s itemId b uf df fa with h | ⟨_, hc, _, h⟩
  · rw [h]; exact hwf
  · rw [h]
    obtain ⟨r0, hr0, he0⟩ := exists_id_of_countP_ne _ _ hc
    constructor
    · intro m hm
      rcases List.mem_append.mp hm with hm | hm
      · obtain ⟨hm', _⟩ := List.mem_filter.mp hm
        obtain ⟨r, hr, he⟩ := hwf.1 m hm'
        refine ⟨updRow itemId b r, List.mem_map.mpr ⟨r, hr, rfl⟩, ?_⟩
        rw [he, updRow_id]
      · refine ⟨updRow itemId b r0, List.mem_map.mpr ⟨r0, hr0, rfl⟩, ?_⟩
        rw [runMats_fst_mem _ _ _ _ m hm, updRow_id, he0]
    · intro r hr
      obtain ⟨r', hr', he'⟩ := List.mem_map.mp hr
      have := hwf.2 r' hr'
      rw [← he', updRow_id]
      exact this

theorem wf_delete (s : Store) (itemId : Int) (hwf : wf s) :
    wf (delete_recipe s itemId).2 := by
  rcases delete_cases s itemId with ⟨h, _⟩ | ⟨_, h⟩
  · rw [h]; exact hwf
  · rw [h]
    constructor
    · intro m hm
      obtain ⟨hm', hne⟩ := List.mem_filter.mp hm
      obtain ⟨r, hr, he⟩ := hwf.1 m hm'
      refine ⟨r, List.mem_filter.mpr ⟨hr, ?_⟩, he⟩
      simp only [bne_iff_ne, ne_eq]
      intro hid
      rw [← he] at hid
      simp [bne_iff_ne, hid] at hne
    · intro r hr
      exact hwf.2 r (List.mem_filter.mp hr).1

theorem falsyStr_true_iff (o : Option String) :
    falsyStr o = true ↔ (o = none ∨ o = some "") := by
  cases o with
  | none => simp [falsyStr]
  | some s => simp [falsyStr]

theorem falsyNum_true_iff (o : Option Int) :
    falsyNum o = true ↔ (o = none ∨ o = some 0) := by
  cases o with
  | none => simp [falsyNum]
  | some n => simp [falsyNum]

theorem validateBody_true_of (b : RecipeBody)
    (h1 : falsyStr b.name = false) (h2 : falsyNum b.quantity_produced = false)
    (h3 : b.materials.isNone = false)
    (h4 : ∀ m ∈ b.materials.getD [], falsyStr m.material_name = false ∧
      falsyNum m.quantity = false ∧ falsyStr m.material_type = false) :
    validateBody b = true := by
  have hany : (b.materials.getD []).any
      (fun mat => falsyStr mat.material_name || falsyNum mat.quantity ||
        falsyStr mat.material_type) = false := by
    rw [List.any_eq_false]
    intro m hm
    obtain ⟨a1, a2, a3⟩ := h4 m hm
    simp [a1, a2, a3]
  unfold validateBody
  simp [h1, h2, h3, hany]

theorem validateBody_false_iff (b : RecipeBody) :
    validateBody b = false ↔
      (b.name = none ∨ b.name = some "" ∨
       b.quantity_produced = none ∨ b.quantity_produced = some 0 ∨
       b.materials = none ∨
       ∃ m ∈ b.materials.getD [],
         (m.material_name = none ∨ m.material_name = some "" ∨
          m.quantity = none ∨ m.quantity = some 0 ∨
          m.material_type = none ∨ m.material_type = some "")) := by
  unfold validateBody
  rw [Bool.not_eq_false']
  simp only [Bool.or_eq_true, Option.isNone_iff_eq_none, List.any_eq_true,
    falsyStr_true_iff, falsyNum_true_iff, or_assoc]

theorem create_success_get (s : Store) (b : RecipeBody) (hwf : wf s)
    (hv : validateBody b = true) :
    (create_recipe s b none).1 = .created s.nextId ∧
    get_recipe (create_recipe s b none).2 s.nextId =
      .found (newRecipe s b) ((b.materials.getD []).map (matRow s.nextId)) := by
  have hstate : create_recipe s b none =
      (.created s.nextId,
        { recipes := s.recipes ++ [newRecipe s b]
          materials := s.materials ++ (b.materials.getD []).map (matRow s.nextId)
          nextId := s.nextId + 1 }) := by
    simp [create_recipe, hv, runMats_none_eq]
  refine ⟨by rw [hstate], ?_⟩
  rw [hstate]
  have hfind : (s.recipes ++ [newRecipe s b]).find? (fun r => r.id == s.nextId) =
      some (newRecipe s b) := by
    rw [List.find?_append, find?_fresh_recipes s hwf.2]
    simp [newRecipe]
  have hfilter : (s.materials ++ (b.materials.getD []).map (matRow s.nextId)).filter
      (fun m => m.recipe_id == s.nextId) =
      (b.materials.getD []).map (matRow s.nextId) := by
    rw [List.filter_append, filter_fresh_materials s hwf, List.nil_append,
      List.filter_eq_self]
    intro m hm
    obtain ⟨a, _, ha⟩ := List.mem_map.mp hm
    rw [← ha]
    simp [matRow]
  unfold get_recipe
  simp only [hfind, hfilter]

theorem countP_ne_zero_of_mem (l : List Recipe) (itemId : Int)
    (hex : ∃ r ∈ l, r.id = itemId) :
    l.countP (fun r => r.id == itemId) ≠ 0 := by
  obtain ⟨r, hr, he⟩ := hex
  intro h0
  exact (List.countP_eq_zero.mp h0 r hr) (by simp [he])

theorem get_recipe_none (s : Store) (itemId : Int)
    (h : ∀ r ∈ s.recipes, r.id ≠ itemId) : get_recipe s itemId = .notFound := by
  unfold get_recipe
  rw [List.find?_eq_none.mpr (fun r hr => by simp [h r hr])]

/-! ## Claims -/

/-- C1: when a step after the first write fails, the whole transaction rolls
back.  With a storage failure injected into material insert `i` of a valid
`create_recipe`, the response is a 500 and the store is exactly the prior
store, so no Recipe row is visible either: reading the would-be id yields
NotFound.  For `update_recipe`, a failure of the UPDATE, of the DELETE of old
materials, or of any material INSERT (any `uf`, `df`, with insert `i`
failing) leaves the prior store — all scalar fields and the prior material
set — intact. -/
theorem create_update_rollback_atomic (s : Store) (b : RecipeBody) (i : Nat)
    (itemId : Int) (uf df : Bool)
    (hv : validateBody b = true) (hi : i < (b.materials.getD []).length)
    (hwf : wf s) :
    create_recipe s b (some i) = (.storeError, s) ∧
    get_recipe (create_recipe s b (some i)).2 s.nextId = .notFound ∧
    (update_recipe s itemId b uf df (some i)).2 = s ∧
    (update_recipe s itemId b true df none).2 = s ∧
    (update_recipe s itemId b false true none).2 = s := by
  have hfailC := runMats_fail0 s.nextId (b.materials.getD []) i hi
  have hfailU := runMats_fail0 itemId (b.materials.getD []) i hi
  have hcreate : create_recipe s b (some i) = (.storeError, s) := by
    simp [create_recipe, hv, hfailC]
  refine ⟨hcreate, ?_, ?_, ?_, ?_⟩
  · rw [hcreate]
    apply get_recipe_none
    intro r hr
    have := hwf.2 r hr
    omega
  · rcases update_cases s itemId b uf df (some i) with h | ⟨_, _, hr, _⟩
    · exact h
    · rw [hfailU] at hr
      exact absurd hr (by simp)
  · simp [update_recipe, hv]
  · by_cases hc : (s.recipes.countP (fun r => r.id == itemId) == 0 : Bool) <;>
      simp [update_recipe, hv, hc]

/-- Witness for C1: the Sword store with a two-material body, failing the
second material insert. -/
theorem create_update_rollback_atomic_witness :
    create_recipe swordStore c1body (some 1) = (.storeError, swordStore) ∧
    get_recipe (create_recipe swordStore c1body (some 1)).2 swordStore.nextId =
      .notFound ∧
    (update_recipe swordStore 1 c1body false false (some 1)).2 = swordStore ∧
    (update_recipe swordStore 1 c1body true false none).2 = swordStore ∧
    (update_recipe swordStore 1 c1body false true none).2 = swordStore :=
  create_update_rollback_atomic swordStore c1body 1 1 false false
    (by decide) (by decide) (by decide)

/-- C3: `update_recipe` on an id that matches no recipe row, with otherwise
valid input, returns NotFound — detected by the zero-rows-affected check on
the UPDATE — and returns the store unchanged, for any injected material
failure. -/
theorem update_nonexistent_notFound (s : Store) (b : RecipeBody)
    (itemId : Int) (fa : Option Nat) (hv : validateBody b = true)
    (h : ∀ r ∈ s.recipes, r.id ≠ itemId) :
    update_recipe s itemId b false false fa = (.notFound, s) := by
  have hc : s.recipes.countP (fun r => r.id == itemId) = 0 :=
    countP_zero_of_no_id s.recipes itemId h
  simp [update_recipe, hv, hc]

/-- Witness for C3: updating id 99 in the Sword store. -/
theorem update_nonexistent_notFound_witness :
    update_recipe swordStore 99 c3body false false none =
      (.notFound, swordStore) :=
  update_nonexistent_notFound swordStore c3body 99 none (by decide) (by decide)

/-- C4: for a valid create input (non-empty name, positive quantity, fully
populated materials), reading the returned id back yields the materials list
equal — even as a list, hence as a set — to the input materials, and the
scalar fields id, name, quantity_produced and npc_sell_price exactly as
supplied. -/
theorem create_get_roundtrip (s : Store) (nm : String) (q p : Int)
    (mats : List MatInput) (hwf : wf s) (hnm : nm ≠ "") (hq : 0 < q)
    (hm : ∀ m ∈ mats, falsyStr m.material_name = false ∧
      falsyNum m.quantity = false ∧ falsyStr m.material_type = false) :
    (create_recipe s ⟨some nm, some q, some p, some mats⟩ none).1 =
      .created s.nextId ∧
    get_recipe (create_recipe s ⟨some nm, some q, some p, some mats⟩ none).2
        s.nextId =
      .found { id := s.nextId, name := nm, quantity_produced := q,
               npc_sell_price := p } (mats.map (matRow s.nextId)) := by
  have hq' : q ≠ 0 := by omega
  have hv : validateBody ⟨some nm, some q, some p, some mats⟩ = true := by
    apply validateBody_true_of
    · simp [falsyStr, hnm]
    · simp [falsyNum, hq']
    · rfl
    · simpa using hm
  have h := create_success_get s ⟨some nm, some q, some p, some mats⟩ hwf hv
  simpa [newRecipe] using h

/-- Witness for C4: the spec's Sword scenario on the empty store. -/
theorem create_get_roundtrip_witness :
    (create_recipe emptyStore ⟨some "Sword", some 1, some 50, some c4mats⟩
        none).1 = .created emptyStore.nextId ∧
    get_recipe
        (create_recipe emptyStore ⟨some "Sword", some 1, some 50, some c4mats⟩
          none).2 emptyStore.nextId =
      .found { id := emptyStore.nextId, name := "Sword", quantity_produced := 1,
               npc_sell_price := 50 } (c4mats.map (matRow emptyStore.nextId)) :=
  create_get_roundtrip emptyStore "Sword" 1 50 c4mats
    (by decide) (by decide) (by decide) (by decide)

/-- C5: every Material row references an existing Recipe (`fkInv`), the
invariant is preserved by create, update (under any fault injection) and
delete, and a successful `delete_recipe` cascades: reading the id back yields
NotFound and no material row for it remains. -/
theorem material_fk_invariant_cascade (s : Store) (b : RecipeBody)
    (itemId : Int) (uf df : Bool) (fa : Option Nat) (hwf : wf s)
    (hex : ∃ r ∈ s.recipes, r.id = itemId) :
    fkInv s ∧
    wf (create_recipe s b fa).2 ∧
    wf (update_recipe s itemId b uf df fa).2 ∧
    wf (delete_recipe s itemId).2 ∧
    (delete_recipe s itemId).1 = .deleted ∧
    get_recipe (delete_recipe s itemId).2 itemId = .notFound ∧
    (delete_recipe s itemId).2.materials.filter
      (fun m => m.recipe_id == itemId) = [] := by
  have hcne := countP_ne_zero_of_mem s.recipes itemId hex
  have hc : (s.recipes.countP (fun r => r.id == itemId) == 0) = false := by
    simpa using hcne
  have hdel : delete_recipe s itemId =
      (.deleted,
        { s with
          recipes := s.recipes.filter (fun r => r.id != itemId)
          materials := s.materials.filter (fun m => m.recipe_id != itemId) }) := by
    simp [delete_recipe, hc]
  refine ⟨hwf.1, wf_create s b fa hwf, wf_update s itemId b uf df fa hwf,
    wf_delete s itemId hwf, by rw [hdel], ?_, ?_⟩
  · rw [hdel]
    apply get_recipe_none
    intro r hr
    have hr' : r ∈ s.recipes.filter (fun r => r.id != itemId) := hr
    have := (List.mem_filter.mp hr').2
    simpa using this
  · rw [hdel]
    show (s.materials.filter (fun m => m.recipe_id != itemId)).filter
      (fun m => m.recipe_id == itemId) = []
    rw [List.filter_eq_nil_iff]
    intro m hm
    have := (List.mem_filter.mp hm).2
    simp only [bne_iff_ne, ne_eq] at this
    simp [this]

/-- Witness for C5: the Sword store, deleting id 1, body `c3body`. -/
theorem material_fk_invariant_cascade_witness :
    fkInv swordStore ∧
    wf (create_recipe swordStore c3body none).2 ∧
    wf (update_recipe swordStore 1 c3body false false none).2 ∧
    wf (delete_recipe swordStore 1).2 ∧
    (delete_recipe swordStore 1).1 = .deleted ∧
    get_recipe (delete_recipe swordStore 1).2 1 = .notFound ∧
    (delete_recipe swordStore 1).2.materials.filter
      (fun m => m.recipe_id == 1) = [] :=
  material_fk_invariant_cascade swordStore c3body 1 false false none
    (by decide) (by decide)

/-- C8: GET /api/items returns, on success, exactly the projection
{id, name, npc_sell_price} of every recipe row — a permutation of the whole
table with equal length, i.e. no pagination or truncation — sorted by name in
ascending order. -/
theorem list_recipes_sorted_complete (s : Store) :
    List.Sorted (fun a b : ListItem => a.name ≤ b.name) (list_recipes s) ∧
    List.Perm (list_recipes s)
      (s.recipes.map (fun r =>
        { id := r.id, name := r.name, npc_sell_price := r.npc_sell_price })) ∧
    (list_recipes s).length = s.recipes.length := by
  refine ⟨?_, ?_, ?_⟩
  · unfold list_recipes
    show List.Pairwise _ _
    rw [List.pairwise_map]
    exact List.sorted_insertionSort nameLe s.recipes
  · unfold list_recipes
    exact (List.perm_insertionSort nameLe s.recipes).map _
  · unfold list_recipes
    rw [List.length_map, List.length_insertionSort]

/-- C10: a recipe id that exists but has zero material rows reads back as a
200 whose response carries a materials field equal to the empty list — it is
neither omitted (the handler always attaches `materials`) nor a NotFound. -/
theorem get_zero_materials_ok (s : Store) (itemId : Int)
    (hex : ∃ r ∈ s.recipes, r.id = itemId)
    (hno : ∀ m ∈ s.materials, m.recipe_id ≠ itemId) :
    ∃ r, r.id = itemId ∧ get_recipe s itemId = .found r [] := by
  have hsome : (s.recipes.find? (fun r => r.id == itemId)).isSome = true := by
    rw [List.find?_isSome]
    obtain ⟨r, hr, he⟩ := hex
    exact ⟨r, hr, by simp [he]⟩
  obtain ⟨r, hr⟩ := Option.isSome_iff_exists.mp hsome
  refine ⟨r, ?_, ?_⟩
  · have := List.find?_some hr
    simpa using this
  · unfold get_recipe
    rw [hr]
    show GetResp.found r (s.materials.filter (fun m => m.recipe_id == itemId)) =
      .found r []
    rw [List.filter_eq_nil_iff.mpr (fun m hm => by simp [hno m hm])]

/-- Witness for C10: recipe 7 of `c10store` has no materials. -/
theorem get_zero_materials_ok_witness :
    ∃ r, r.id = 7 ∧ get_recipe c10store 7 = .found r [] :=
  get_zero_materials_ok c10store 7 (by decide) (by decide)

/-- C2 counterexample: the spec's scenario update_recipe(1,"Sword",1,60,[])
is NOT rejected — `![]` is false in JavaScript and `[].some(...)` is false —
so the update commits: the response is 200/updated (not a 400), the price
becomes 60 rather than staying 50, and the Iron material row is deleted. -/
theorem update_empty_materials_cex :
    validateBody c2body = true ∧
    (update_recipe swordStore 1 c2body false false none).1 = .updated 1 ∧
    (update_recipe swordStore 1 c2body false false none).1 ≠ .badRequest ∧
    (update_recipe swordStore 1 c2body false false none).2.recipes =
      [{ id := 1, name := "Sword", quantity_produced := 1,
         npc_sell_price := 60 }] ∧
    (update_recipe swordStore 1 c2body false false none).2.materials = [] := by
  decide

/-- C2 (amended): a create or update whose materials field is the empty list
passes validation (the handlers never check emptiness): create inserts the
Recipe with zero material rows and returns 201, and update on an existing id
returns 200, replacing the material set with the empty set. -/
theorem empty_materials_accepted (s : Store) (b : RecipeBody) (itemId : Int)
    (hm : b.materials = some [])
    (hn : falsyStr b.name = false) (hq : falsyNum b.quantity_produced = false)
    (hex : ∃ r ∈ s.recipes, r.id = itemId) :
    validateBody b = true ∧
    create_recipe s b none =
      (.created s.nextId,
        { recipes := s.recipes ++ [newRecipe s b]
          materials := s.materials
          nextId := s.nextId + 1 }) ∧
    (update_recipe s itemId b false false none).1 = .updated itemId ∧
    (update_recipe s itemId b false false none).2.materials.filter
      (fun m => m.recipe_id == itemId) = [] := by
  have hv : validateBody b = true := by
    apply validateBody_true_of b hn hq
    · rw [hm]
      rfl
    · rw [hm]
      intro m hmm
      simp at hmm
  have hc : (s.recipes.countP (fun r => r.id == itemId) == 0) = false := by
    simpa using countP_ne_zero_of_mem s.recipes itemId hex
  have hupd : update_recipe s itemId b false false none =
      (.updated itemId,
        { s with
          recipes := s.recipes.map (updRow itemId b)
          materials := s.materials.filter (fun m => m.recipe_id != itemId) }) := by
    simp [update_recipe, hv, hc, hm, runMats_none_eq]
  refine ⟨hv, ?_, by rw [hupd], ?_⟩
  · simp [create_recipe, hv, hm, runMats_none_eq]
  · rw [hupd]
    show (s.materials.filter (fun m => m.recipe_id != itemId)).filter
      (fun m => m.recipe_id == itemId) = []
    rw [List.filter_eq_nil_iff]
    intro m hmm
    have := (List.mem_filter.mp hmm).2
    simp only [bne_iff_ne, ne_eq] at this
    simp [this]

/-- Witness for the amended C2 at the Sword store. -/
theorem empty_materials_accepted_witness :
    validateBody c2body = true ∧
    create_recipe swordStore c2body none =
      (.created swordStore.nextId,
        { recipes := swordStore.recipes ++ [newRecipe swordStore c2body]
          materials := swordStore.materials
          nextId := swordStore.nextId + 1 }) ∧
    (update_recipe swordStore 1 c2body false false none).1 = .updated 1 ∧
    (update_recipe swordStore 1 c2body false false none).2.materials.filter
      (fun m => m.recipe_id == 1) = [] :=
  empty_materials_accepted swordStore c2body 1
    (by decide) (by decide) (by decide) (by decide)

/-- C6 counterexample: an input with quantity_produced = -3 and a material
quantity of -2 — which the claim says must be rejected — passes the falsy-only
validation and is created with both negative values stored. -/
theorem negative_quantities_accepted_cex :
    validateBody c6body = true ∧
    create_recipe emptyStore c6body none =
      (.created 1,
        { recipes := [{ id := 1, name := "Shield", quantity_produced := -3,
                        npc_sell_price := 10 }]
          materials := [{ recipe_id := 1, material_name := "Wood",
                          quantity := -2, material_type := "wood",
                          default_npc_price := 1 }]
          nextId := 2 }) := by
  decide

/-- C6 (amended): create_recipe answers 400 — leaving the store untouched —
exactly when some checked field is JavaScript-falsy: name absent or empty,
quantity_produced absent or zero, materials absent or not an array, or some
material entry with absent/empty material_name or material_type or
absent/zero quantity.  Negative quantity_produced and negative material
quantities are not rejected. -/
theorem create_validation_characterization (s : Store) (b : RecipeBody)
    (fa : Option Nat) :
    ((create_recipe s b fa).1 = .badRequest ↔
      (b.name = none ∨ b.name = some "" ∨
       b.quantity_produced = none ∨ b.quantity_produced = some 0 ∨
       b.materials = none ∨
       ∃ m ∈ b.materials.getD [],
         (m.material_name = none ∨ m.material_name = some "" ∨
          m.quantity = none ∨ m.quantity = some 0 ∨
          m.material_type = none ∨ m.material_type = some ""))) ∧
    ((create_recipe s b fa).1 = .badRequest → (create_recipe s b fa).2 = s) := by
  have hbr : ((create_recipe s b fa).1 = .badRequest) ↔ validateBody b = false := by
    unfold create_recipe
    by_cases hv : validateBody b
    · by_cases hr : (runMats s.nextId (b.materials.getD []) 0 fa).2 <;>
        simp [hv, hr]
    · simp [hv]
  constructor
  · rw [hbr, validateBody_false_iff]
  · intro h1
    have hv' : validateBody b = false := hbr.mp h1
    simp [create_recipe, hv']

/-- Witness for the amended C6: an absent name is rejected with 400 and the
store is unchanged. -/
theorem create_validation_characterization_witness :
    (create_recipe emptyStore c6badBody none).1 = .badRequest ∧
    (create_recipe emptyStore c6badBody none).2 = emptyStore :=
  ⟨(create_validation_characterization emptyStore c6badBody none).1.mpr
      (Or.inl rfl),
   (create_validation_characterization emptyStore c6badBody none).2
     ((create_validation_characterization emptyStore c6badBody none).1.mpr
       (Or.inl rfl))⟩

/-- C7 counterexample: "12abc" is not a numeric string, yet `parseInt` yields
12, no 400 is raised, and the store IS queried — GET returns recipe 12 and
DELETE removes it. -/
theorem non_numeric_id_queried_cex :
    isNumericString "12abc" = false ∧
    parseIntJS "12abc" = some 12 ∧
    get_recipe_api c7store "12abc" =
      .found { id := 12, name := "Axe", quantity_produced := 1,
               npc_sell_price := 5 } [] ∧
    delete_recipe_api c7store "12abc" =
      (.deleted, { recipes := [], materials := [], nextId := 13 }) := by
  decide

/-- C7 (amended): the id endpoints answer 400 before any query exactly for the
ids on which `parseInt(id, 10)` yields NaN — no decimal digit after optional
whitespace and sign; an id with a numeric prefix (such as "12abc") is instead
parsed to that prefix and the store is queried for it. -/
theorem nan_id_rejected_before_query (s : Store) (idStr : String)
    (b : RecipeBody) (uf df : Bool) (fa : Option Nat)
    (h : parseIntJS idStr = none) :
    get_recipe_api s idStr = .badRequest ∧
    update_recipe_api s idStr b uf df fa = (.badRequest, s) ∧
    delete_recipe_api s idStr = (.badRequest, s) := by
  unfold get_recipe_api update_recipe_api delete_recipe_api
  rw [h]
  exact ⟨rfl, rfl, rfl⟩

/-- Witness for the amended C7: the id "abc" parses to NaN and all three
endpoints answer 400 with the store untouched. -/
theorem nan_id_rejected_before_query_witness :
    get_recipe_api c7store "abc" = .badRequest ∧
    update_recipe_api c7store "abc" c7body false false none =
      (.badRequest, c7store) ∧
    delete_recipe_api c7store "abc" = (.badRequest, c7store) :=
  nan_id_rejected_before_query c7store "abc" c7body false false none (by decide)

/-- C9 counterexample: the claim says npc_sell_price and default_npc_price are
non-negative, but `v || 0` only replaces falsy values: a create with
npc_sell_price = -5 and default_npc_price = -7 succeeds and reads back with
both negative values stored. -/
theorem negative_price_stored_cex :
    (create_recipe emptyStore c9body none).1 = .created 1 ∧
    get_recipe (create_recipe emptyStore c9body none).2 1 =
      .found { id := 1, name := "Gem", quantity_produced := 1,
               npc_sell_price := -5 }
        [{ recipe_id := 1, material_name := "Shard", quantity := 2,
           material_type := "gem", default_npc_price := -7 }] := by
  decide

/-- C9 (amended): npc_sell_price defaults to 0 when absent from a create or
update request, and each material's default_npc_price defaults to 0 when
absent: a recipe created without npc_sell_price reads back with
npc_sell_price = 0 and all its materials with default_npc_price = 0, and an
update without npc_sell_price leaves the matching row with npc_sell_price = 0.
(Negative supplied prices are not rejected; `v || 0` replaces only
absent/falsy values.) -/
theorem price_defaults_to_zero (s : Store) (b : RecipeBody) (itemId : Int)
    (hwf : wf s) (hv : validateBody b = true)
    (hp : b.npc_sell_price = none)
    (hd : ∀ m ∈ b.materials.getD [], m.default_npc_price = none) :
    (create_recipe s b none).1 = .created s.nextId ∧
    (∃ mats, get_recipe (create_recipe s b none).2 s.nextId =
        .found { id := s.nextId, name := b.name.getD ""
                 quantity_produced := b.quantity_produced.getD 0
                 npc_sell_price := 0 } mats ∧
      ∀ mr ∈ mats, mr.default_npc_price = 0) ∧
    (∀ r ∈ (update_recipe s itemId b false false none).2.recipes,
      r.id = itemId → r.npc_sell_price = 0) := by
  obtain ⟨h1, h2⟩ := create_success_get s b hwf hv
  refine ⟨h1, ⟨(b.materials.getD []).map (matRow s.nextId), ?_, ?_⟩, ?_⟩
  · rw [h2]
    simp [newRecipe, hp]
  · intro mr hmr
    obtain ⟨a, ha, hrw⟩ := List.mem_map.mp hmr
    rw [← hrw]
    simp [matRow, hd a ha]
  · by_cases hc : (s.recipes.countP (fun r => r.id == itemId) == 0 : Bool)
    · have hstate : update_recipe s itemId b false false none = (.notFound, s) := by
        simp [update_recipe, hv, hc]
      rw [hstate]
      intro r hr hid
      have hall : ∀ a ∈ s.recipes, ¬a.id = itemId := by simpa using hc
      exact absurd hid (hall r hr)
    · have hstate : update_recipe s itemId b false false none =
          (.updated itemId,
            { s with
              recipes := s.recipes.map (updRow itemId b)
              materials :=
                s.materials.filter (fun m => m.recipe_id != itemId) ++
                  (b.materials.getD []).map (matRow itemId) }) := by
        simp [update_recipe, hv, hc, runMats_none_eq]
      rw [hstate]
      intro r hr hid
      obtain ⟨r0, hr0, hrw⟩ := List.mem_map.mp hr
      rw [← hrw]
      by_cases h0 : (r0.id == itemId : Bool)
      · simp [updRow, h0, hp]
      · rw [← hrw] at hid
        rw [show updRow itemId b r0 = r0 from by simp [updRow, h0]] at hid
        exact absurd hid (by simpa using h0)

/-- Witness for the amended C9: creating "Orb" without prices on the empty
store, updating id 1 afterwards. -/
theorem price_defaults_to_zero_witness :
    (create_recipe emptyStore c9defBody none).1 = .created emptyStore.nextId ∧
    (∃ mats, get_recipe (create_recipe emptyStore c9defBody none).2
        emptyStore.nextId =
        .found { id := emptyStore.nextId, name := c9defBody.name.getD ""
                 quantity_produced := c9defBody.quantity_produced.getD 0
                 npc_sell_price := 0 } mats ∧
      ∀ mr ∈ mats, mr.default_npc_price = 0) ∧
    (∀ r ∈ (update_recipe emptyStore 1 c9defBody false false none).2.recipes,
      r.id = 1 → r.npc_sell_price = 0) :=
  price_defaults_to_zero emptyStore c9defBody 1
    (by decide) (by decide) (by decide) (by decide)
